import Mathlib

/-!
Verification of the per-cycle decision core of `motion_planner.cpp`
(`planning::MotionPlanner`) against its natural-language specification.

The C++ code is shallowly embedded over exact rationals (`ℚ` stands for the
real semantics of `double`; decimal literals such as `1.0e-5` are modelled by
the exact rationals they denote).  Trigonometric functions are abstracted as
parameters `cosQ sinQ : ℚ → ℚ`, mirroring the calls `std::cos` / `std::sin`
on stored headings; theorems that need concrete values instantiate them
consistently (e.g. heading 0 with `cosQ _ = 1`, `sinQ _ = 0`).
Machine-integer effects that matter (the `size_t` subtraction and the
`static_cast<int>` truncation in `GetStitchingTrajectory`) are modelled with
explicit `% 2^64` / `% 2^32` arithmetic.
-/

namespace Planning

/-- `planning_msgs::PathPoint`: pose sample on a path (all fields `double`,
default-constructed to zero). -/
structure PathPoint where
  x : ℚ := 0
  y : ℚ := 0
  theta : ℚ := 0
  s : ℚ := 0
  kappa : ℚ := 0
  dkappa : ℚ := 0
deriving DecidableEq, Inhabited

/-- `planning_msgs::TrajectoryPoint` (all fields default to zero). -/
structure TrajectoryPoint where
  path_point : PathPoint := {}
  vel : ℚ := 0
  acc : ℚ := 0
  jerk : ℚ := 0
  steer_angle : ℚ := 0
  relative_time : ℚ := 0
deriving DecidableEq

instance instInhabitedTrajectoryPoint : Inhabited TrajectoryPoint := ⟨{}⟩

/-- Status tag of `planning_msgs::Trajectory`; `UNSET` stands for the
default-constructed status of a freshly declared message. -/
inductive TrajStatus where
  | UNSET
  | NORMAL
  | EMPTY
  | EMERGENCYSTOP
deriving DecidableEq, Inhabited

/-- `planning_msgs::Trajectory`: point sequence plus header stamp and status. -/
structure Trajectory where
  trajectory_points : List TrajectoryPoint := []
  stamp : ℚ := 0
  status : TrajStatus := .UNSET
deriving DecidableEq, Inhabited

/-- The `PlanningConfig` singleton's parameters used by the planner core. -/
structure PlanningConfig where
  desired_velocity : ℚ
  max_lat_acc : ℚ
  max_lon_acc : ℚ
  max_lookahead_time : ℚ
  delta_t : ℚ
  loop_rate : ℚ
  preserve_history_trajectory_point_num : ℕ
  max_replan_lat_distance_threshold : ℚ
  max_replan_lon_distance_threshold : ℚ
deriving DecidableEq, Inhabited

/-- `vehicle_state::KinoDynamicState` (the fields read by the planner). -/
structure KinoDynamicState where
  x : ℚ := 0
  y : ℚ := 0
  z : ℚ := 0
  theta : ℚ := 0
  kappa : ℚ := 0
  v : ℚ := 0
  a : ℚ := 0
deriving DecidableEq, Inhabited

/-- `static_cast<int>` applied to a positive-or-zero `double` quotient:
truncation toward zero. -/
def truncToInt (q : ℚ) : ℤ :=
  if 0 ≤ q then ⌊q⌋ else -⌊-q⌋

/-- Body of the `for (int i = 1; i < num_traj_point; ++i)` loop of
`MotionPlanner::GenerateEmergencyStopTrajectory`, with the mutable locals
`last_x last_y last_v last_a last_theta last_s` threaded explicitly.
`n` is the number of remaining iterations and `i` the current loop index. -/
def emergencyStopLoop (cosQ sinQ : ℚ → ℚ) (init : TrajectoryPoint)
    (kTimeGap max_decel stop_time : ℚ) :
    ℕ → ℕ → ℚ → ℚ → ℚ → ℚ → ℚ → ℚ → List TrajectoryPoint
  | 0, _, _, _, _, _, _, _ => []
  | n + 1, i, last_x, last_y, last_v, last_a, last_theta, last_s =>
    let t := i * kTimeGap + init.relative_time
    let vel := init.vel - last_a * kTimeGap
    let acc := if t ≤ stop_time then -max_decel else 0
    let ds := (1/2 * last_a * kTimeGap + last_v) * kTimeGap
    let x := last_x + cosQ last_theta * ds
    let y := last_y + sinQ last_theta * ds
    let s := last_s + ds
    let tp : TrajectoryPoint :=
      { path_point := { x := x, y := y, theta := last_theta, s := s,
                        kappa := 0, dkappa := 0 },
        vel := vel, acc := acc, jerk := 0,
        steer_angle := init.steer_angle, relative_time := t }
    tp :: emergencyStopLoop cosQ sinQ init kTimeGap max_decel stop_time
      n (i + 1) x y vel acc last_theta s

/-- `MotionPlanner::GenerateEmergencyStopTrajectory`: the produced point list.
Mirrors the source exactly, including `resize(num_traj_point)` (which fills
the vector with `num_traj_point` default-constructed points) followed by
`push_back`s of the initial point and of the loop's points. -/
def GenerateEmergencyStopTrajectory (cosQ sinQ : ℚ → ℚ) (cfg : PlanningConfig)
    (init_trajectory_point : TrajectoryPoint) : List TrajectoryPoint :=
  let kMaxTrajectoryTime := cfg.max_lookahead_time
  let kTimeGap := cfg.delta_t
  let num_traj_point := (truncToInt (kMaxTrajectoryTime / kTimeGap)).toNat
  let max_decel := cfg.max_lon_acc
  let stop_time := init_trajectory_point.vel / max_decel
  let first : TrajectoryPoint :=
    { init_trajectory_point with relative_time := 0, acc := -max_decel }
  List.replicate num_traj_point default ++ first ::
    emergencyStopLoop cosQ sinQ init_trajectory_point kTimeGap max_decel
      stop_time (num_traj_point - 1) 1
      init_trajectory_point.path_point.x init_trajectory_point.path_point.y
      init_trajectory_point.vel max_decel
      init_trajectory_point.path_point.theta init_trajectory_point.path_point.s

/-- Concrete configuration used for evaluating the emergency-stop generator:
8 s horizon, 1 s step, 3 m/s² deceleration bound (scenario B of the spec uses
the same deceleration). -/
def cfgEm : PlanningConfig :=
  { desired_velocity := 10, max_lat_acc := 2, max_lon_acc := 3,
    max_lookahead_time := 8, delta_t := 1, loop_rate := 10,
    preserve_history_trajectory_point_num := 5,
    max_replan_lat_distance_threshold := 1,
    max_replan_lon_distance_threshold := 1 }

/-- Origin point for the emergency-stop evaluation: at rest frame origin,
heading 0, moving at 9 m/s (spec scenario B's initial velocity). -/
def initEm : TrajectoryPoint := { vel := 9 }

/-- C1: the emergency-stop velocity sequence at a concrete admissible input
(origin velocity 9 ≥ 0, max_deceleration 3 > 0, horizon 8 s, step 1 s).  The
code yields velocities [0,0,0,0,0,0,0,0,9,6,12,12,12,9,9,9]: the `resize`
prefix is stuck at zero yet velocity later jumps to 9, and the braking tail
rises from 6 back to 12 (because `tp.vel` is recomputed from the origin
velocity with `last_a` initialised to `+max_decel`), so the sequence is not
monotonically non-increasing-until-zero and never actually stops. -/
theorem emergency_stop_velocity_profile :
    (GenerateEmergencyStopTrajectory (fun _ => 1) (fun _ => 0) cfgEm initEm).map
        (fun tp => tp.vel) =
      [0, 0, 0, 0, 0, 0, 0, 0, 9, 6, 12, 12, 12, 9, 9, 9] := by
  norm_num [GenerateEmergencyStopTrajectory, emergencyStopLoop, truncToInt, cfgEm, initEm, List.replicate, instInhabitedTrajectoryPoint]

/-- C3: at the same concrete input the generated trajectory has 16 points,
not `floor(max_horizon / time_step) = 8`, and its first point is the
default-constructed point (velocity 0, acceleration 0) rather than the origin
with acceleration forced to `−max_deceleration = −3`. -/
theorem emergency_stop_size_and_head :
    (GenerateEmergencyStopTrajectory (fun _ => 1) (fun _ => 0) cfgEm initEm).length = 16 ∧
    (GenerateEmergencyStopTrajectory (fun _ => 1) (fun _ => 0) cfgEm initEm).head? =
      some default := by
  norm_num [GenerateEmergencyStopTrajectory, emergencyStopLoop, truncToInt, cfgEm, initEm, List.replicate, instInhabitedTrajectoryPoint]

/-- `MotionPlanner::GetTimeMatchIndex`.  The source asserts the trajectory
non-empty and reads `trajectory.back()`; it then uses `std::lower_bound` with
comparator `tp.relative_time + eps < relative_time`, which on the monotone
`relative_time` sequence (the data-model invariant for trajectories) returns
the first index whose point satisfies `relative ≤ relative_time + eps`. -/
def GetTimeMatchIndex (relative eps : ℚ) (trajectory : List TrajectoryPoint) : ℕ :=
  if (trajectory.getLastD default).relative_time < relative then
    trajectory.length - 1
  else trajectory.findIdx fun tp => decide (relative ≤ tp.relative_time + eps)

/-- Loop of `MotionPlanner::GetPositionMatchedIndex`, threading the running
state `(min_dist_sqr, min_index)`.  `none` stands for the initial
`std::numeric_limits<double>::max()` sentinel, which exceeds every squared
distance; `i` is the current scan index.  The comparison tolerance is
`kEps = 1.0e-5`. -/
def posMatchGo (x y : ℚ) :
    List TrajectoryPoint → ℕ → Option ℚ → ℕ → Option ℚ × ℕ
  | [], _, min_dist_sqr, min_index => (min_dist_sqr, min_index)
  | tp :: rest, i, min_dist_sqr, min_index =>
    let dist_sqr := (tp.path_point.x - x) * (tp.path_point.x - x) +
      (tp.path_point.y - y) * (tp.path_point.y - y)
    match min_dist_sqr with
    | none => posMatchGo x y rest (i + 1) (some dist_sqr) i
    | some m =>
      if dist_sqr < m + 1/100000 then posMatchGo x y rest (i + 1) (some dist_sqr) i
      else posMatchGo x y rest (i + 1) (some m) min_index

/-- `MotionPlanner::GetPositionMatchedIndex`. -/
def GetPositionMatchedIndex (xy : ℚ × ℚ) (trajectory : List TrajectoryPoint) : ℕ :=
  (posMatchGo xy.1 xy.2 trajectory 0 none 0).2

/-- `MotionPlanner::GetLatAndLonDistFromRefPoint`, verbatim from the source:
`sd.first = v.x() * n.x() + n.y() + v.y() + point.s` (note the `+` between
`n.y()` and `v.y()`), `sd.second = v.x() * n.y() - v.y() * n.x()`. -/
def GetLatAndLonDistFromRefPoint (cosQ sinQ : ℚ → ℚ) (x y : ℚ)
    (point : PathPoint) : ℚ × ℚ :=
  let vx := x - point.x
  let vy := y - point.y
  let nx := cosQ point.theta
  let ny := sinQ point.theta
  (vx * nx + ny + vy + point.s, vx * ny - vy * nx)

/-- `MotionPlanner::ComputeTrajectoryPointFromVehicleState`.  Fields the
source does not assign (`jerk` aside, which it zeroes) keep the message
default 0 (`dkappa`, `steer_angle`). -/
def ComputeTrajectoryPointFromVehicleState (planning_cycle_time : ℚ)
    (kinodynamic_state : KinoDynamicState) : TrajectoryPoint :=
  { path_point := { x := kinodynamic_state.x, y := kinodynamic_state.y,
                    s := 0, theta := kinodynamic_state.theta,
                    kappa := kinodynamic_state.kappa, dkappa := 0 },
    vel := kinodynamic_state.v, acc := kinodynamic_state.a,
    jerk := 0, steer_angle := 0, relative_time := planning_cycle_time }

/-- `MotionPlanner::ComputeReinitStitchingTrajectory`.  The forward state
propagation `KinoDynamicState::GetNextStateAfterTime` lives outside this
source file (vehicle-state collaborator), so it is taken as the abstract
parameter `nextState`; the thresholds are the source's
`kEpsilon_v = 0.1`, `kEpsilon_a = 0.4`. -/
def ComputeReinitStitchingTrajectory
    (nextState : KinoDynamicState → ℚ → KinoDynamicState)
    (planning_cycle_time : ℚ) (kino_dynamic_state : KinoDynamicState) :
    List TrajectoryPoint :=
  if |kino_dynamic_state.a| < 2/5 ∧ |kino_dynamic_state.v| < 1/10 then
    [ComputeTrajectoryPointFromVehicleState planning_cycle_time kino_dynamic_state]
  else
    [ComputeTrajectoryPointFromVehicleState planning_cycle_time
      (nextState kino_dynamic_state planning_cycle_time)]

/-- Wrap-around `size_t` subtraction `matched_index - preserve_points_num`
(unsigned 64-bit arithmetic, modulo `2^64`). -/
def wrapSub64 (m p : ℕ) : ℕ :=
  (m % 2 ^ 64 + (2 ^ 64 - p % 2 ^ 64)) % 2 ^ 64

/-- `static_cast<int>` of a 64-bit unsigned value: truncate to the low 32
bits and reinterpret as a two's-complement signed integer. -/
def toInt32 (v : ℕ) : ℤ :=
  let r : ℕ := v % 2 ^ 32
  if r < 2 ^ 31 then (r : ℤ) else (r : ℤ) - 2 ^ 32

/-- The slice start index
`std::max(0, static_cast<int>(matched_index - preserve_points_num))` of
`MotionPlanner::GetStitchingTrajectory`, as the machine computes it. -/
def sliceStartNat (m p : ℕ) : ℕ :=
  (max 0 (toInt32 (wrapSub64 m p))).toNat

/-- Tail of `MotionPlanner::GetStitchingTrajectory`'s normal path: slice the
history points from `start` through `forward` inclusive, then re-base every
point's `relative_time` by `stampMinusNow = (history stamp − now)` and its
`s` by the slice's last point's `s`. -/
def stitchNormalSlice (pts : List TrajectoryPoint) (stampMinusNow : ℚ)
    (start forward : ℕ) : List TrajectoryPoint :=
  let sliced := (pts.take (forward + 1)).drop start
  let zero_s := (sliced.getLastD default).path_point.s
  sliced.map fun tp =>
    { tp with relative_time := tp.relative_time + stampMinusNow,
              path_point := { tp.path_point with s := tp.path_point.s - zero_s } }

/-- `MotionPlanner::GetStitchingTrajectory`.  Instance state
(`has_history_trajectory_`, `history_trajectory_`, the vehicle state read at
the top) is passed explicitly; the replan thresholds come from `cfg`. -/
def GetStitchingTrajectory (cosQ sinQ : ℚ → ℚ)
    (nextState : KinoDynamicState → ℚ → KinoDynamicState)
    (cfg : PlanningConfig) (current_time_stamp planning_cycle_time : ℚ)
    (preserve_points_num : ℕ) (has_history : Bool) (history : Trajectory)
    (state : KinoDynamicState) : List TrajectoryPoint :=
  if ¬ has_history then
    ComputeReinitStitchingTrajectory nextState planning_cycle_time state
  else if history.trajectory_points.isEmpty then
    ComputeReinitStitchingTrajectory nextState planning_cycle_time state
  else
    let pts := history.trajectory_points
    let relative_time := current_time_stamp - history.stamp
    let time_matched_index := GetTimeMatchIndex relative_time (1/100000) pts
    if time_matched_index = 0 ∧
        relative_time < (pts.headI).relative_time then
      ComputeReinitStitchingTrajectory nextState planning_cycle_time state
    else if pts.length - 1 ≤ time_matched_index then
      ComputeReinitStitchingTrajectory nextState planning_cycle_time state
    else
      let time_matched_tp := pts.getD time_matched_index default
      let position_matched_index := GetPositionMatchedIndex (state.x, state.y) pts
      let position_matched_tp := pts.getD position_matched_index default
      let sd := GetLatAndLonDistFromRefPoint cosQ sinQ state.x state.y
        position_matched_tp.path_point
      let lon_diff := time_matched_tp.path_point.s - sd.1
      let lat_diff := sd.2
      if cfg.max_replan_lat_distance_threshold < |lat_diff| then
        ComputeReinitStitchingTrajectory nextState planning_cycle_time state
      else if cfg.max_replan_lon_distance_threshold < |lon_diff| then
        ComputeReinitStitchingTrajectory nextState planning_cycle_time state
      else
        let forward_rel_time := relative_time + planning_cycle_time
        let forward_rel_matched_index :=
          GetTimeMatchIndex forward_rel_time (1/100000) pts
        let matched_index := min position_matched_index time_matched_index
        stitchNormalSlice pts (history.stamp - current_time_stamp)
          (sliceStartNat matched_index preserve_points_num)
          forward_rel_matched_index

/-- `derived_object_msgs::Object`: the fields the planner reads (identity and
pose position).  The objects map is keyed by `object.id`, so entries satisfy
`key = object.id` by construction of the subscriber callback. -/
structure Object where
  id : ℤ := 0
  x : ℚ := 0
  y : ℚ := 0
  z : ℚ := 0
deriving DecidableEq, Inhabited

/-- `carla_msgs::CarlaTrafficLightStatus::state` values. -/
inductive LightState where
  | RED
  | YELLOW
  | GREEN
  | OFF
  | UNKNOWN
deriving DecidableEq, Inhabited

/-- `carla_msgs::CarlaTrafficLightStatus`. -/
structure CarlaTrafficLightStatus where
  state : LightState := .UNKNOWN
deriving DecidableEq, Inhabited

/-- `carla_msgs::CarlaTrafficLightInfo`: trigger-volume center position. -/
structure CarlaTrafficLightInfo where
  center_x : ℚ := 0
  center_y : ℚ := 0
  center_z : ℚ := 0
deriving DecidableEq, Inhabited

/-- An `Obstacle` as built by `GetKeyObstacle`: either from a dynamic object
or from a traffic light's info and status.  The predicted trajectory attached
by `Obstacle::PredictTrajectory` is an external collaborator concern and not
represented. -/
inductive Obstacle where
  | dynamicObject (obj : Object)
  | trafficLight (info : CarlaTrafficLightInfo) (status : CarlaTrafficLightStatus)
deriving DecidableEq

/-- Planar position a selected obstacle was gated on: the object's pose for
dynamic objects, the trigger-volume center for traffic lights. -/
def Obstacle.posX : Obstacle → ℚ
  | .dynamicObject obj => obj.x
  | .trafficLight info _ => info.center_x

/-- Planar y-position a selected obstacle was gated on. -/
def Obstacle.posY : Obstacle → ℚ
  | .dynamicObject obj => obj.y
  | .trafficLight info _ => info.center_y

/-- `MotionPlanner::GetKeyObstacle`.  The two `unordered_map`s are modelled
as association lists; `std::hypot(dx, dy) < radius` is rendered as the
equivalent real comparison `dx² + dy² < radius²` (both sides non-negative).
The source's `radius` is the literal 50 and the height gate the literal 1.5. -/
def GetKeyObstacle (objects : List (ℤ × Object))
    (traffic_light_status_list : List (ℤ × CarlaTrafficLightStatus))
    (traffic_lights_info_list : List (ℤ × CarlaTrafficLightInfo))
    (trajectory_point : TrajectoryPoint) (ego_id : ℤ) : List Obstacle :=
  let ego_object := (objects.lookup ego_id).getD default
  let radius : ℚ := 50
  let dyn := objects.filterMap fun pr =>
    if pr.1 = ego_id then none
    else
      let dist_sqr := (trajectory_point.path_point.x - pr.2.x) ^ 2 +
        (trajectory_point.path_point.y - pr.2.y) ^ 2
      let height_diff := |pr.2.z - ego_object.z|
      if dist_sqr < radius ^ 2 ∧ height_diff < 3/2 then
        some (Obstacle.dynamicObject pr.2)
      else none
  let lights := traffic_lights_info_list.filterMap fun pr =>
    match traffic_light_status_list.lookup pr.1 with
    | none => none
    | some light_status =>
      if light_status.state = .GREEN ∨ light_status.state = .UNKNOWN then none
      else
        let dist_sqr := (trajectory_point.path_point.x - pr.2.center_x) ^ 2 +
          (trajectory_point.path_point.y - pr.2.center_y) ^ 2
        let height_diff := |pr.2.center_z - ego_object.z|
        if dist_sqr < radius ^ 2 ∧ height_diff < 3/2 then
          some (Obstacle.trafficLight pr.2 light_status)
        else none
  dyn ++ lights

/-- `common::SLPoint`: arc-length / lateral-offset pair. -/
structure SLPoint where
  s : ℚ := 0
  l : ℚ := 0
deriving DecidableEq, Inhabited

/-- The `ReferenceLine` collaborator, abstracted by the operations
`GetPlanningTargets` invokes on it (the class itself lives outside this
source file): `XYToSL` (None when the projection fails), total `Length`,
the curvature `GetReferencePoint(s).kappa()`, and `IsOnLane`. -/
structure ReferenceLine where
  XYToSL : ℚ → ℚ → Option SLPoint
  Length : ℚ
  refPointKappa : ℚ → ℚ
  IsOnLane : SLPoint → Bool

/-- `std::numeric_limits<double>::max()`, exactly. -/
def dblMax : ℚ := 2 ^ 1024 - 2 ^ 971

/-- `PlanningTarget` as populated by `MotionPlanner::GetPlanningTargets`. -/
structure PlanningTarget where
  ref_lane : ReferenceLine
  has_stop_point : Bool
  stop_s : ℚ
  is_best_behaviour : Bool
  desired_vel : ℚ

/-- `MotionPlanner::GetPlanningTargets`: one target per reference line whose
`XYToSL` projection of the origin point succeeds; lines that fail to project
are skipped (`continue`). -/
def GetPlanningTargets (cfg : PlanningConfig) (ref_lines : List ReferenceLine)
    (init_point : TrajectoryPoint) : List PlanningTarget :=
  ref_lines.filterMap fun ref_line =>
    match ref_line.XYToSL init_point.path_point.x init_point.path_point.y with
    | none => none
    | some sl_point => some
      { ref_lane := ref_line,
        has_stop_point := decide (ref_line.Length < sl_point.s + 50),
        stop_s := if ref_line.Length < sl_point.s + 50 then ref_line.Length
                  else dblMax,
        is_best_behaviour := ref_line.IsOnLane sl_point,
        desired_vel := min cfg.desired_velocity
          (cfg.max_lat_acc / (|ref_line.refPointKappa sl_point.s| + 1/10000)) }

/-- The cross-cycle planner state: `has_history_trajectory_` and
`history_trajectory_`. -/
structure PlannerCycleState where
  has_history_trajectory_ : Bool := false
  history_trajectory_ : Trajectory := {}

/-- Result of one `MotionPlanner::RunOnce` cycle: the updated cross-cycle
state and the trajectory published this cycle (if any).  `RunOnce` is a total
function — every branch returns normally, so a cycle never terminates the
surrounding `Launch` loop. -/
structure RunOnceResult where
  state : PlannerCycleState
  published : Option Trajectory

/-- `MotionPlanner::RunOnce`.  Collaborators are passed as inputs: the
reference generator's `GetReferenceLines` result (`none` when it returned
false), the trajectory planner's `Process` (`none` when it returns false,
otherwise the optimal trajectory's points), the kinodynamic vehicle state,
and the world snapshot maps.  Visualization calls are pure sinks and omitted. -/
def RunOnce (cosQ sinQ : ℚ → ℚ)
    (nextState : KinoDynamicState → ℚ → KinoDynamicState)
    (cfg : PlanningConfig)
    (getReferenceLines : Option (List ReferenceLine))
    (process : List Obstacle → TrajectoryPoint → List PlanningTarget →
      Option (List TrajectoryPoint))
    (current_time_stamp : ℚ) (ego_vehicle_id : ℤ)
    (objects_map : List (ℤ × Object))
    (traffic_light_status_list : List (ℤ × CarlaTrafficLightStatus))
    (traffic_lights_info_list : List (ℤ × CarlaTrafficLightInfo))
    (vehicle_state : KinoDynamicState)
    (st : PlannerCycleState) : RunOnceResult :=
  if ego_vehicle_id = -1 then ⟨st, none⟩
  else if (objects_map.lookup ego_vehicle_id).isNone then ⟨st, none⟩
  else
    let stitching_trajectory := GetStitchingTrajectory cosQ sinQ nextState cfg
      current_time_stamp (1 / cfg.loop_rate)
      cfg.preserve_history_trajectory_point_num
      st.has_history_trajectory_ st.history_trajectory_ vehicle_state
    let init_trajectory_point := stitching_trajectory.getLastD default
    match getReferenceLines with
    | none =>
      let optimal_trajectory : Trajectory :=
        { trajectory_points :=
            GenerateEmergencyStopTrajectory cosQ sinQ cfg init_trajectory_point,
          stamp := current_time_stamp, status := .EMERGENCYSTOP }
      ⟨{ has_history_trajectory_ := false,
         history_trajectory_ := st.history_trajectory_ },
       some optimal_trajectory⟩
    | some ref_lines =>
      let obstacles := GetKeyObstacle objects_map traffic_light_status_list
        traffic_lights_info_list init_trajectory_point ego_vehicle_id
      let planning_targets := GetPlanningTargets cfg ref_lines init_trajectory_point
      match process obstacles init_trajectory_point planning_targets with
      | none =>
        let optimal_trajectory : Trajectory :=
          { trajectory_points :=
              GenerateEmergencyStopTrajectory cosQ sinQ cfg init_trajectory_point,
            stamp := current_time_stamp, status := .EMERGENCYSTOP }
        ⟨{ has_history_trajectory_ := false,
           history_trajectory_ := st.history_trajectory_ },
         some optimal_trajectory⟩
      | some optimal_points =>
        let spliced := stitching_trajectory.dropLast ++ optimal_points
        let optimal_trajectory : Trajectory :=
          { trajectory_points := spliced, stamp := current_time_stamp,
            status := if spliced.isEmpty then .EMPTY else .NORMAL }
        ⟨{ has_history_trajectory_ := true,
           history_trajectory_ := optimal_trajectory },
         some optimal_trajectory⟩

/-- Modelled from the spec: the standard Frenet-frame projection the design
notes prescribe — longitudinal is the dot product of the offset vector with
the heading vector plus the reference point's arc-length, lateral is the
cross product of the offset vector and the heading vector. -/
def specFrenetProjection (cosQ sinQ : ℚ → ℚ) (x y : ℚ)
    (point : PathPoint) : ℚ × ℚ :=
  let vx := x - point.x
  let vy := y - point.y
  let nx := cosQ point.theta
  let ny := sinQ point.theta
  (vx * nx + vy * ny + point.s, vx * ny - vy * nx)

/-- C5: at the query point (0, 1) against a reference point at the origin
with heading 0 (so cos θ = 1, sin θ = 0) and arc-length 0, the code returns
longitudinal 1 — it adds `sin θ` and `Δy` instead of multiplying them — while
the standard Frenet projection the claim (and the spec's design note)
describes gives longitudinal 0.  The lateral component agrees (−1). -/
theorem latlon_dist_from_ref_point_bug :
    GetLatAndLonDistFromRefPoint (fun _ => 1) (fun _ => 0) 0 1 {} = (1, -1) ∧
    specFrenetProjection (fun _ => 1) (fun _ => 0) 0 1 {} = (0, -1) := by
  constructor <;> norm_num [GetLatAndLonDistFromRefPoint, specFrenetProjection]

/-- C6 counterexample: a history with two points at the identical position
(the query point itself).  Both squared distances are 0; the second point
satisfies `dist_sqr < min_dist_sqr + kEps` (0 < 0 + 1e-5), so it overwrites
the running best and the function returns index 1, not the earliest
minimising index 0 the claim requires. -/
theorem position_matched_index_tie_goes_to_later :
    GetPositionMatchedIndex (0, 0) [default, default] = 1 := by
  norm_num [GetPositionMatchedIndex, posMatchGo, instInhabitedTrajectoryPoint]

/-- Running `posMatchGo` over an appended list processes the two parts in
sequence, the second starting from the first's final state. -/
theorem posMatchGo_append (x y : ℚ) (l1 l2 : List TrajectoryPoint) (i : ℕ)
    (m : Option ℚ) (b : ℕ) :
    posMatchGo x y (l1 ++ l2) i m b =
      posMatchGo x y l2 (i + l1.length) (posMatchGo x y l1 i m b).1
        (posMatchGo x y l1 i m b).2 := by
  induction l1 generalizing i m b with
  | nil => simp [posMatchGo]
  | cons tp rest ih =>
    have hlen : i + 1 + rest.length = i + (tp :: rest).length := by
      simp only [List.length_cons]; omega
    cases m with
    | none =>
      show posMatchGo x y (tp :: (rest ++ l2)) i none b = _
      simp only [posMatchGo]
      rw [ih, hlen]
    | some mv =>
      show posMatchGo x y (tp :: (rest ++ l2)) i (some mv) b = _
      simp only [posMatchGo]
      split <;> rw [ih, hlen]

/-- Once the running minimum is `m`, a suffix whose every point lies at
squared distance at least `m + kEps` leaves the state untouched. -/
theorem posMatchGo_far (x y : ℚ) (l : List TrajectoryPoint) (i : ℕ)
    (m : ℚ) (b : ℕ)
    (h : ∀ tp ∈ l, m + 1/100000 ≤ (tp.path_point.x - x) * (tp.path_point.x - x) +
      (tp.path_point.y - y) * (tp.path_point.y - y)) :
    posMatchGo x y l i (some m) b = (some m, b) := by
  induction l generalizing i with
  | nil => rfl
  | cons tp rest ih =>
    have htp := h tp (by simp)
    simp only [posMatchGo, if_neg (not_lt.mpr htp)]
    exact ih (i + 1) fun q hq => h q (by simp [hq])

/-- C6 (amended): the epsilon comparison `dist_sqr < min_dist_sqr + kEps`
means a later point strictly within `kEps` of the running best — including an
exact tie — replaces it, so among eps-close points the latest wins; only a
later point whose squared distance is at least the running best plus `kEps`
can never replace the running best index.  Formally: if scanning a prefix
ends in state `(some m, b)` and every remaining point is at squared distance
at least `m + kEps`, the returned index is `b`. -/
theorem GetPositionMatchedIndex_far_suffix_keeps_best (x y : ℚ)
    (l1 l2 : List TrajectoryPoint) (m : ℚ) (b : ℕ)
    (hstate : posMatchGo x y l1 0 none 0 = (some m, b))
    (hfar : ∀ tp ∈ l2, m + 1/100000 ≤ (tp.path_point.x - x) * (tp.path_point.x - x) +
      (tp.path_point.y - y) * (tp.path_point.y - y)) :
    GetPositionMatchedIndex (x, y) (l1 ++ l2) = b := by
  unfold GetPositionMatchedIndex
  rw [posMatchGo_append, hstate]
  simp only [posMatchGo_far x y l2 _ m b hfar]

/-- A far second point: x = 7, so its squared distance 49 exceeds the first
point's 0 by more than kEps. -/
def farPoint : TrajectoryPoint := { path_point := { x := 7 } }

/-- Witness for C6's amended theorem: with a first point at the query point
(squared distance 0) and a second point at distance 7 (squared distance 49 ≥
0 + 1e-5), the index returned is 0. -/
theorem GetPositionMatchedIndex_far_suffix_keeps_best_witness :
    GetPositionMatchedIndex (0, 0) ([default] ++ [farPoint]) = 0 :=
  GetPositionMatchedIndex_far_suffix_keeps_best 0 0 [default] [farPoint] 0 0
    (by norm_num [posMatchGo, instInhabitedTrajectoryPoint])
    (by intro tp htp; simp only [List.mem_singleton] at htp;
        subst htp; norm_num [farPoint])

/-- C9: every planning target's `desired_vel` equals
`min(desired_velocity cap, max_lat_acc / (|κ at the projected s| + 1e-4))`,
and is therefore bounded by the global cap and by the curvature-limited
bound. -/
theorem GetPlanningTargets_desired_vel (cfg : PlanningConfig)
    (ref_lines : List ReferenceLine) (init_point : TrajectoryPoint) :
    ∀ t ∈ GetPlanningTargets cfg ref_lines init_point,
      ∃ line ∈ ref_lines, ∃ sl,
        line.XYToSL init_point.path_point.x init_point.path_point.y = some sl ∧
        t.desired_vel = min cfg.desired_velocity
          (cfg.max_lat_acc / (|line.refPointKappa sl.s| + 1/10000)) ∧
        t.desired_vel ≤ cfg.desired_velocity ∧
        t.desired_vel ≤ cfg.max_lat_acc / (|line.refPointKappa sl.s| + 1/10000) := by
  intro t ht
  simp only [GetPlanningTargets, List.mem_filterMap] at ht
  obtain ⟨line, hline, heq⟩ := ht
  cases hxy : line.XYToSL init_point.path_point.x init_point.path_point.y with
  | none => rw [hxy] at heq; cases heq
  | some sl =>
    rw [hxy] at heq
    obtain rfl := (Option.some_inj.mp heq).symm
    exact ⟨line, hline, sl, hxy, rfl, min_le_left _ _, min_le_right _ _⟩

/-- A concrete reference line: projection always succeeds at s = 0, length
100, zero curvature, on-lane everywhere. -/
def lineW : ReferenceLine :=
  { XYToSL := fun _ _ => some {}, Length := 100,
    refPointKappa := fun _ => 0, IsOnLane := fun _ => true }

/-- The planning target `GetPlanningTargets cfgEm [lineW] initEm` produces. -/
def targetW : PlanningTarget :=
  { ref_lane := lineW,
    has_stop_point := decide (lineW.Length < (0:ℚ) + 50),
    stop_s := if lineW.Length < (0:ℚ) + 50 then lineW.Length else dblMax,
    is_best_behaviour := true,
    desired_vel := min cfgEm.desired_velocity
      (cfgEm.max_lat_acc / (|(0:ℚ)| + 1/10000)) }

/-- Witness for C9 at a concrete reference line with zero curvature. -/
theorem GetPlanningTargets_desired_vel_witness :
    ∃ line ∈ [lineW], ∃ sl,
      line.XYToSL initEm.path_point.x initEm.path_point.y = some sl ∧
      targetW.desired_vel = min cfgEm.desired_velocity
        (cfgEm.max_lat_acc / (|line.refPointKappa sl.s| + 1/10000)) ∧
      targetW.desired_vel ≤ cfgEm.desired_velocity ∧
      targetW.desired_vel ≤ cfgEm.max_lat_acc / (|line.refPointKappa sl.s| + 1/10000) :=
  GetPlanningTargets_desired_vel cfgEm [lineW] initEm targetW
    (by simp [GetPlanningTargets, lineW, targetW])

/-- Membership characterisation for `GetKeyObstacle`: an obstacle is selected
iff it comes from a non-ego dynamic object passing the distance/height gates,
or from a traffic light with a known status that is neither GREEN nor UNKNOWN
passing the same gates on its trigger-volume center. -/
theorem mem_GetKeyObstacle_iff (objects : List (ℤ × Object))
    (statusL : List (ℤ × CarlaTrafficLightStatus))
    (infoL : List (ℤ × CarlaTrafficLightInfo))
    (tp : TrajectoryPoint) (ego_id : ℤ) (ego_obj : Object)
    (hego : objects.lookup ego_id = some ego_obj) (obs : Obstacle) :
    obs ∈ GetKeyObstacle objects statusL infoL tp ego_id ↔
      (∃ pr ∈ objects, pr.1 ≠ ego_id ∧
        (tp.path_point.x - pr.2.x) ^ 2 + (tp.path_point.y - pr.2.y) ^ 2 < 50 ^ 2 ∧
        |pr.2.z - ego_obj.z| < 3/2 ∧ obs = Obstacle.dynamicObject pr.2) ∨
      (∃ pr ∈ infoL, ∃ st, statusL.lookup pr.1 = some st ∧
        st.state ≠ .GREEN ∧ st.state ≠ .UNKNOWN ∧
        (tp.path_point.x - pr.2.center_x) ^ 2 +
          (tp.path_point.y - pr.2.center_y) ^ 2 < 50 ^ 2 ∧
        |pr.2.center_z - ego_obj.z| < 3/2 ∧ obs = Obstacle.trafficLight pr.2 st) := by
  simp only [GetKeyObstacle, hego, Option.getD_some, List.mem_append,
    List.mem_filterMap]
  constructor
  · rintro (⟨pr, hpr, hf⟩ | ⟨pr, hpr, hf⟩)
    · by_cases h1 : pr.1 = ego_id
      · rw [if_pos h1] at hf; cases hf
      · rw [if_neg h1] at hf
        by_cases h2 : (tp.path_point.x - pr.2.x) ^ 2 +
            (tp.path_point.y - pr.2.y) ^ 2 < 50 ^ 2 ∧ |pr.2.z - ego_obj.z| < 3/2
        · rw [if_pos h2] at hf
          exact Or.inl ⟨pr, hpr, h1, h2.1, h2.2, (Option.some_inj.mp hf).symm⟩
        · rw [if_neg h2] at hf; cases hf
    · cases hlk : statusL.lookup pr.1 with
      | none => simp only [hlk] at hf; cases hf
      | some st =>
        simp only [hlk] at hf
        by_cases h1 : st.state = .GREEN ∨ st.state = .UNKNOWN
        · rw [if_pos h1] at hf; cases hf
        · rw [if_neg h1] at hf
          by_cases h2 : (tp.path_point.x - pr.2.center_x) ^ 2 +
              (tp.path_point.y - pr.2.center_y) ^ 2 < 50 ^ 2 ∧
              |pr.2.center_z - ego_obj.z| < 3/2
          · rw [if_pos h2] at hf
            push_neg at h1
            exact Or.inr ⟨pr, hpr, st, hlk, h1.1, h1.2, h2.1, h2.2,
              (Option.some_inj.mp hf).symm⟩
          · rw [if_neg h2] at hf; cases hf
  · rintro (⟨pr, hpr, h1, h2, h3, rfl⟩ | ⟨pr, hpr, st, hlk, hg, hu, h2, h3, rfl⟩)
    · exact Or.inl ⟨pr, hpr, by rw [if_neg h1, if_pos ⟨h2, h3⟩]⟩
    · refine Or.inr ⟨pr, hpr, ?_⟩
      simp only [hlk]
      rw [if_neg (by simp [hg, hu]), if_pos ⟨h2, h3⟩]

/-- C8: `GetKeyObstacle` never builds an obstacle from the ego's own entry
(object ids equal map keys by construction of the objects subscriber), every
selected obstacle's planar squared distance to the origin point is strictly
below `radius² = 2500`, and a non-ego dynamic object is selected exactly when
it passes the `< 50` distance gate and the `< 1.5` height gate. -/
theorem GetKeyObstacle_selection (objects : List (ℤ × Object))
    (statusL : List (ℤ × CarlaTrafficLightStatus))
    (infoL : List (ℤ × CarlaTrafficLightInfo))
    (tp : TrajectoryPoint) (ego_id : ℤ) (ego_obj : Object)
    (hego : objects.lookup ego_id = some ego_obj)
    (hkeys : ∀ pr ∈ objects, pr.2.id = pr.1) :
    (∀ obs ∈ GetKeyObstacle objects statusL infoL tp ego_id,
      ∀ o, obs = Obstacle.dynamicObject o → o.id ≠ ego_id) ∧
    (∀ obs ∈ GetKeyObstacle objects statusL infoL tp ego_id,
      (tp.path_point.x - obs.posX) ^ 2 + (tp.path_point.y - obs.posY) ^ 2 < 50 ^ 2) ∧
    (∀ pr ∈ objects, pr.1 ≠ ego_id →
      (Obstacle.dynamicObject pr.2 ∈ GetKeyObstacle objects statusL infoL tp ego_id ↔
        (tp.path_point.x - pr.2.x) ^ 2 + (tp.path_point.y - pr.2.y) ^ 2 < 50 ^ 2 ∧
        |pr.2.z - ego_obj.z| < 3/2)) := by
  refine ⟨?_, ?_, ?_⟩
  · intro obs hobs o hobs_eq
    subst hobs_eq
    rcases (mem_GetKeyObstacle_iff objects statusL infoL tp ego_id ego_obj
        hego _).mp hobs with ⟨pr, hpr, h1, _, _, heq⟩ | ⟨_, _, _, _, _, _, _, _, heq⟩
    · obtain rfl : o = pr.2 := by injection heq
      rw [hkeys pr hpr]; exact h1
    · exact Obstacle.noConfusion heq
  · intro obs hobs
    rcases (mem_GetKeyObstacle_iff objects statusL infoL tp ego_id ego_obj
        hego _).mp hobs with ⟨pr, _, _, h2, _, rfl⟩ | ⟨pr, _, st, _, _, _, h2, _, rfl⟩ <;>
      simpa [Obstacle.posX, Obstacle.posY] using h2
  · intro pr hpr h1
    rw [mem_GetKeyObstacle_iff objects statusL infoL tp ego_id ego_obj hego]
    constructor
    · rintro (⟨pr', _, _, h2, h3, heq⟩ | ⟨_, _, _, _, _, _, _, _, heq⟩)
      · have h22 : pr.2 = pr'.2 := by injection heq
        rw [h22]; exact ⟨h2, h3⟩
      · exact Obstacle.noConfusion heq
    · rintro ⟨h2, h3⟩
      exact Or.inl ⟨pr, hpr, h1, h2, h3, rfl⟩

/-- The concrete ego object entry used by C8's witness. -/
def egoObjW : Object := { id := 1 }

/-- The concrete non-ego object of C8's witness: 3 m away, same height. -/
def otherObjW : Object := { id := 2, x := 3 }

/-- Witness for C8: with ego id 1 and one other object 3 m away at the same
height, all three conclusions hold for the concrete snapshot; in particular
the other object is selected. -/
theorem GetKeyObstacle_selection_witness :
    (∀ obs ∈ GetKeyObstacle [(1, egoObjW), (2, otherObjW)] [] [] default 1,
      ∀ o, obs = Obstacle.dynamicObject o → o.id ≠ 1) ∧
    (∀ obs ∈ GetKeyObstacle [(1, egoObjW), (2, otherObjW)] [] [] default 1,
      ((default : TrajectoryPoint).path_point.x - obs.posX) ^ 2 +
        ((default : TrajectoryPoint).path_point.y - obs.posY) ^ 2 < 50 ^ 2) ∧
    (∀ pr ∈ [((1:ℤ), egoObjW), (2, otherObjW)], pr.1 ≠ 1 →
      (Obstacle.dynamicObject pr.2 ∈
          GetKeyObstacle [(1, egoObjW), (2, otherObjW)] [] [] default 1 ↔
        (((default : TrajectoryPoint).path_point.x - pr.2.x) ^ 2 +
          ((default : TrajectoryPoint).path_point.y - pr.2.y) ^ 2 < 50 ^ 2 ∧
        |pr.2.z - egoObjW.z| < 3/2))) :=
  GetKeyObstacle_selection [(1, egoObjW), (2, otherObjW)] [] [] default 1 egoObjW
    (by decide) (by decide)

/-- C2: whenever the reference generator returns no lines, or the trajectory
planner's `Process` call (on the obstacles, origin point and targets actually
computed this cycle) returns false, `RunOnce` publishes a trajectory with
status EMERGENCYSTOP stamped with the current cycle time, clears
`has_history_trajectory_`, leaves the stored history trajectory untouched
(the published emergency trajectory is not stored as history), and returns
normally — the surrounding loop is not terminated. -/
theorem RunOnce_failure_publishes_emergency_stop (cosQ sinQ : ℚ → ℚ)
    (nextState : KinoDynamicState → ℚ → KinoDynamicState)
    (cfg : PlanningConfig) (getReferenceLines : Option (List ReferenceLine))
    (process : List Obstacle → TrajectoryPoint → List PlanningTarget →
      Option (List TrajectoryPoint))
    (current_time_stamp : ℚ) (ego_vehicle_id : ℤ)
    (objects_map : List (ℤ × Object))
    (traffic_light_status_list : List (ℤ × CarlaTrafficLightStatus))
    (traffic_lights_info_list : List (ℤ × CarlaTrafficLightInfo))
    (vehicle_state : KinoDynamicState) (st : PlannerCycleState)
    (stitching : List TrajectoryPoint) (ip : TrajectoryPoint)
    (hego : ¬ ego_vehicle_id = -1)
    (hin : (objects_map.lookup ego_vehicle_id).isSome)
    (hstitch : stitching = GetStitchingTrajectory cosQ sinQ nextState cfg
      current_time_stamp (1 / cfg.loop_rate)
      cfg.preserve_history_trajectory_point_num
      st.has_history_trajectory_ st.history_trajectory_ vehicle_state)
    (hip : ip = stitching.getLastD default)
    (hfail : getReferenceLines = none ∨
      ∀ rl, getReferenceLines = some rl →
        process (GetKeyObstacle objects_map traffic_light_status_list
            traffic_lights_info_list ip ego_vehicle_id) ip
          (GetPlanningTargets cfg rl ip) = none) :
    ∃ t, (RunOnce cosQ sinQ nextState cfg getReferenceLines process
        current_time_stamp ego_vehicle_id objects_map
        traffic_light_status_list traffic_lights_info_list
        vehicle_state st).published = some t ∧
      t.status = .EMERGENCYSTOP ∧ t.stamp = current_time_stamp ∧
      (RunOnce cosQ sinQ nextState cfg getReferenceLines process
        current_time_stamp ego_vehicle_id objects_map
        traffic_light_status_list traffic_lights_info_list
        vehicle_state st).state.has_history_trajectory_ = false ∧
      (RunOnce cosQ sinQ nextState cfg getReferenceLines process
        current_time_stamp ego_vehicle_id objects_map
        traffic_light_status_list traffic_lights_info_list
        vehicle_state st).state.history_trajectory_ = st.history_trajectory_ := by
  obtain ⟨v, hv⟩ := Option.isSome_iff_exists.mp hin
  subst hip hstitch
  rcases hfail with hnone | hproc
  · subst hnone
    simp only [RunOnce, if_neg hego, hv, Option.isNone_some, Bool.false_eq_true,
      if_false]
    refine ⟨_, rfl, ?_, ?_, ?_, ?_⟩ <;> trivial
  · cases hrl : getReferenceLines with
    | none =>
      simp only [RunOnce, if_neg hego, hv, Option.isNone_some, Bool.false_eq_true,
        if_false]
      refine ⟨_, rfl, ?_, ?_, ?_, ?_⟩ <;> trivial
    | some rl =>
      have hp := hproc rl hrl
      simp only [RunOnce, if_neg hego, hv, Option.isNone_some, Bool.false_eq_true,
        if_false, hp]
      refine ⟨_, rfl, ?_, ?_, ?_, ?_⟩ <;> trivial

/-- Witness for C2: a concrete cycle (ego id 1 present in the snapshot, no
reference lines) publishes an EMERGENCYSTOP trajectory, clears the history
flag and keeps the stored history. -/
theorem RunOnce_failure_publishes_emergency_stop_witness :
    ∃ t, (RunOnce (fun _ => 1) (fun _ => 0) (fun s _ => s) cfgEm none
        (fun _ _ _ => none) 0 1 [(1, egoObjW)] [] [] {}
        { has_history_trajectory_ := false, history_trajectory_ := {} }).published =
          some t ∧
      t.status = .EMERGENCYSTOP ∧ t.stamp = 0 ∧
      (RunOnce (fun _ => 1) (fun _ => 0) (fun s _ => s) cfgEm none
        (fun _ _ _ => none) 0 1 [(1, egoObjW)] [] [] {}
        { has_history_trajectory_ := false, history_trajectory_ := {} }).state.has_history_trajectory_ = false ∧
      (RunOnce (fun _ => 1) (fun _ => 0) (fun s _ => s) cfgEm none
        (fun _ _ _ => none) 0 1 [(1, egoObjW)] [] [] {}
        { has_history_trajectory_ := false, history_trajectory_ := {} }).state.history_trajectory_ =
        ({ has_history_trajectory_ := false,
           history_trajectory_ := {} } : PlannerCycleState).history_trajectory_ :=
  RunOnce_failure_publishes_emergency_stop (fun _ => 1) (fun _ => 0)
    (fun s _ => s) cfgEm none (fun _ _ _ => none) 0 1 [(1, egoObjW)] [] [] {}
    { has_history_trajectory_ := false, history_trajectory_ := {} } _ _
    (by decide) (by decide) rfl rfl (Or.inl rfl)

/-- C10: for `matched_index` and `preserve_points_num` both below `2^31`, the
wrapped `size_t` subtraction followed by the `int` truncation recovers the
(possibly negative) mathematical difference, the `std::max(0, ·)` clamp gives
`matched_index − min(matched_index, preserve)`, so the slice start index is a
valid index not exceeding `matched_index`; consequently the slice taken up to
any `forward` index ≥ `matched_index` inside the trajectory is never empty. -/
theorem sliceStart_wraparound (m p : ℕ) (hm : m < 2 ^ 31) (hp : p < 2 ^ 31) :
    toInt32 (wrapSub64 m p) = (m : ℤ) - p ∧
    sliceStartNat m p = m - min m p ∧
    sliceStartNat m p ≤ m ∧
    ∀ (pts : List TrajectoryPoint) (fwd : ℕ), m ≤ fwd → fwd < pts.length →
      (pts.take (fwd + 1)).drop (sliceStartNat m p) ≠ [] := by
  have e64 : (2:ℕ) ^ 64 = 18446744073709551616 := by norm_num
  have e32 : (2:ℕ) ^ 32 = 4294967296 := by norm_num
  have e31 : (2:ℕ) ^ 31 = 2147483648 := by norm_num
  have ei32 : (2:ℤ) ^ 32 = 4294967296 := by norm_num
  rw [e31] at hm hp
  have hkey : toInt32 (wrapSub64 m p) = (m : ℤ) - p := by
    unfold toInt32 wrapSub64
    rw [e64, e32, e31, ei32]
    dsimp only
    split <;> omega
  have hslice : sliceStartNat m p = m - min m p := by
    unfold sliceStartNat
    rw [hkey]
    omega
  refine ⟨hkey, hslice, by omega, ?_⟩
  intro pts fwd h1 h2
  apply List.ne_nil_of_length_pos
  rw [List.length_drop, List.length_take]
  omega

/-- Witness for C10 at `matched_index = 1 < preserve_points_num = 3` (the
wrapping case) with a three-point trajectory and `forward = 2`. -/
theorem sliceStart_wraparound_witness :
    toInt32 (wrapSub64 1 3) = (1 : ℤ) - 3 ∧
    sliceStartNat 1 3 = 1 - min 1 3 ∧
    sliceStartNat 1 3 ≤ 1 ∧
    ∀ (pts : List TrajectoryPoint) (fwd : ℕ), 1 ≤ fwd → fwd < pts.length →
      (pts.take (fwd + 1)).drop (sliceStartNat 1 3) ≠ [] :=
  sliceStart_wraparound 1 3 (by norm_num) (by norm_num)

/-- The reinit trajectory always has exactly one point (both branches return
a one-element vector). -/
theorem length_ComputeReinitStitchingTrajectory
    (nextState : KinoDynamicState → ℚ → KinoDynamicState)
    (planning_cycle_time : ℚ) (state : KinoDynamicState) :
    (ComputeReinitStitchingTrajectory nextState planning_cycle_time state).length = 1 := by
  unfold ComputeReinitStitchingTrajectory
  split <;> rfl

/-- With both operands below `2^31`, the clamped machine slice start never
exceeds `matched_index`. -/
theorem sliceStartNat_le_left (m p : ℕ) (hm : m < 2 ^ 31) (hp : p < 2 ^ 31) :
    sliceStartNat m p ≤ m := by
  have e64 : (2:ℕ) ^ 64 = 18446744073709551616 := by norm_num
  have e32 : (2:ℕ) ^ 32 = 4294967296 := by norm_num
  have e31 : (2:ℕ) ^ 31 = 2147483648 := by norm_num
  have ei32 : (2:ℤ) ^ 32 = 4294967296 := by norm_num
  rw [e31] at hm hp
  unfold sliceStartNat toInt32 wrapSub64
  rw [e64, e32, e31, ei32]
  dsimp only
  split <;> omega

/-- `findIdx` is antitone in the predicate: a pointwise weaker predicate is
satisfied no later. -/
theorem findIdx_le_findIdx_of_imp {α : Type} {p q : α → Bool} (l : List α)
    (h : ∀ a, p a = true → q a = true) : l.findIdx q ≤ l.findIdx p := by
  induction l with
  | nil => simp
  | cons a l ih =>
    rw [List.findIdx_cons, List.findIdx_cons]
    cases hq : q a with
    | true => simp only [Bool.cond_true]; exact Nat.zero_le _
    | false =>
      have hp : p a = false := by
        cases hpa : p a
        · rfl
        · exact absurd (h a hpa) (by simp [hq])
      simp only [hq, hp, Bool.cond_false]
      exact Nat.succ_le_succ ih

/-- For a non-empty trajectory and non-negative tolerance, the time-matched
index is a valid index. -/
theorem getTimeMatchIndex_lt_length (r eps : ℚ) (pts : List TrajectoryPoint)
    (hne : pts ≠ []) (heps : 0 ≤ eps) :
    GetTimeMatchIndex r eps pts < pts.length := by
  have hlen : 0 < pts.length := List.length_pos.mpr hne
  have hlast : pts.getLastD default = pts.getLast hne := by
    rw [List.getLastD_eq_getLast?, List.getLast?_eq_getLast pts hne]
    rfl
  unfold GetTimeMatchIndex
  split
  · omega
  · next hnlt =>
    apply List.findIdx_lt_length_of_exists
    refine ⟨pts.getLast hne, List.getLast_mem hne, ?_⟩
    simp only [decide_eq_true_eq]
    rw [hlast] at hnlt
    push_neg at hnlt
    linarith

/-- The time-matched index is monotone in the queried relative time. -/
theorem getTimeMatchIndex_mono (r r' eps : ℚ) (pts : List TrajectoryPoint)
    (hne : pts ≠ []) (heps : 0 ≤ eps) (hrr : r ≤ r') :
    GetTimeMatchIndex r eps pts ≤ GetTimeMatchIndex r' eps pts := by
  unfold GetTimeMatchIndex
  by_cases h1 : (pts.getLastD default).relative_time < r
  · rw [if_pos h1, if_pos (lt_of_lt_of_le h1 hrr)]
  · rw [if_neg h1]
    by_cases h2 : (pts.getLastD default).relative_time < r'
    · rw [if_pos h2]
      have hlast : pts.getLastD default = pts.getLast hne := by
        rw [List.getLastD_eq_getLast?, List.getLast?_eq_getLast pts hne]
        rfl
      have hlt : pts.findIdx (fun tp => decide (r ≤ tp.relative_time + eps)) <
          pts.length := by
        apply List.findIdx_lt_length_of_exists
        refine ⟨pts.getLast hne, List.getLast_mem hne, ?_⟩
        simp only [decide_eq_true_eq]
        rw [hlast] at h1
        push_neg at h1
        linarith
      omega
    · rw [if_neg h2]
      refine findIdx_le_findIdx_of_imp pts fun a ha => ?_
      simp only [decide_eq_true_eq] at ha ⊢
      linarith

/-- If the queried time precedes the first point's relative time, time match
returns index 0 — unless the back-of-trajectory shortcut already returned the
last index. -/
theorem getTimeMatchIndex_of_lt_head (r eps : ℚ) (pts : List TrajectoryPoint)
    (hne : pts ≠ []) (heps : 0 ≤ eps)
    (h : r < pts.headI.relative_time) :
    GetTimeMatchIndex r eps pts = 0 ∨
    GetTimeMatchIndex r eps pts = pts.length - 1 := by
  unfold GetTimeMatchIndex
  split
  · right; rfl
  · left
    cases pts with
    | nil => exact absurd rfl hne
    | cons a t =>
      rw [List.findIdx_cons]
      have ha : decide (r ≤ a.relative_time + eps) = true := by
        simp only [decide_eq_true_eq]
        have : r < a.relative_time := by simpa [List.headI] using h
        linarith
      simp [ha]

/-- Length of the re-based slice. -/
theorem length_stitchNormalSlice (pts : List TrajectoryPoint) (d : ℚ)
    (start forward : ℕ) :
    (stitchNormalSlice pts d start forward).length =
      min (forward + 1) pts.length - start := by
  simp [stitchNormalSlice]

/-- The re-based slice is non-empty whenever `start ≤ forward < length`. -/
theorem stitchNormalSlice_ne_nil (pts : List TrajectoryPoint) (d : ℚ)
    (start forward : ℕ) (h1 : start ≤ forward) (h2 : forward < pts.length) :
    stitchNormalSlice pts d start forward ≠ [] := by
  apply List.ne_nil_of_length_pos
  rw [length_stitchNormalSlice]
  omega

/-- The raw slice `[start, forward]` of the history ends at the point of
index `forward` when `start ≤ forward < length`. -/
theorem slice_getLast? (pts : List TrajectoryPoint) (start forward : ℕ)
    (h1 : start ≤ forward) (h2 : forward < pts.length) :
    ((pts.take (forward + 1)).drop start).getLast? = some (pts.getD forward default) := by
  rw [List.getLast?_eq_getElem?, List.length_drop, List.length_take]
  have hidx : (forward + 1) ⊓ pts.length - start - 1 = forward - start := by omega
  rw [hidx, List.getElem?_drop]
  have hsum : start + (forward - start) = forward := by omega
  rw [hsum, List.getElem?_take, if_pos (by omega), List.getElem?_eq_getElem h2,
    List.getD_eq_getElem?_getD, List.getElem?_eq_getElem h2, Option.getD_some]

/-- The re-based slice ends at the `forward`-indexed history point with its
relative time shifted by `d` and its arc-length re-based to 0. -/
theorem stitchNormalSlice_getLast? (pts : List TrajectoryPoint) (d : ℚ)
    (start forward : ℕ) (h1 : start ≤ forward) (h2 : forward < pts.length) :
    (stitchNormalSlice pts d start forward).getLast? =
      some { pts.getD forward default with
             relative_time := (pts.getD forward default).relative_time + d,
             path_point :=
               { (pts.getD forward default).path_point with s := 0 } } := by
  unfold stitchNormalSlice
  dsimp only
  rw [List.getLast?_map, List.getLastD_eq_getLast?,
    slice_getLast? pts start forward h1 h2]
  simp

/-- C4: with index widths below `2^31` and a non-negative cycle period,
`GetStitchingTrajectory` returns exactly one point when any of the reinit
triggers holds — no history, empty history, current relative time before the
first point's relative_time, time-matched index equal to the last index, or a
lateral/longitudinal deviation beyond its threshold — and in every case
(reinit or normal) the returned sequence is non-empty. -/
theorem GetStitchingTrajectory_reinit_and_nonempty (cosQ sinQ : ℚ → ℚ)
    (nextState : KinoDynamicState → ℚ → KinoDynamicState)
    (cfg : PlanningConfig) (current_time_stamp planning_cycle_time : ℚ)
    (preserve_points_num : ℕ) (has_history : Bool) (history : Trajectory)
    (state : KinoDynamicState) (tmi pmi : ℕ) (sd : ℚ × ℚ)
    (htmi : tmi = GetTimeMatchIndex (current_time_stamp - history.stamp)
      (1/100000) history.trajectory_points)
    (hpmi : pmi = GetPositionMatchedIndex (state.x, state.y)
      history.trajectory_points)
    (hsd : sd = GetLatAndLonDistFromRefPoint cosQ sinQ state.x state.y
      (history.trajectory_points.getD pmi default).path_point)
    (hlen : history.trajectory_points.length < 2 ^ 31)
    (hpre : preserve_points_num < 2 ^ 31)
    (hcyc : 0 ≤ planning_cycle_time) :
    ((has_history = false ∨ history.trajectory_points = [] ∨
      current_time_stamp - history.stamp <
        history.trajectory_points.headI.relative_time ∨
      tmi = history.trajectory_points.length - 1 ∨
      cfg.max_replan_lat_distance_threshold < |sd.2| ∨
      cfg.max_replan_lon_distance_threshold <
        |(history.trajectory_points.getD tmi default).path_point.s - sd.1|) →
      (GetStitchingTrajectory cosQ sinQ nextState cfg current_time_stamp
        planning_cycle_time preserve_points_num has_history history
        state).length = 1) ∧
    GetStitchingTrajectory cosQ sinQ nextState cfg current_time_stamp
      planning_cycle_time preserve_points_num has_history history state ≠ [] := by
  subst htmi hpmi hsd
  constructor
  · intro hre
    unfold GetStitchingTrajectory
    dsimp only
    split_ifs with h1 h2 h3 h4 h5 h6
    any_goals
      exact length_ComputeReinitStitchingTrajectory nextState
        planning_cycle_time state
    exfalso
    have hne : history.trajectory_points ≠ [] := fun hh => h2 (by simp [hh])
    rcases hre with h | h | h | h | h | h
    · simp [h] at h1
    · exact hne h
    · rcases getTimeMatchIndex_of_lt_head (current_time_stamp - history.stamp)
          (1/100000) history.trajectory_points hne (by norm_num) h with h0 | hl
      · exact h3 ⟨h0, h⟩
      · exact h4 (le_of_eq hl.symm)
    · exact h4 (le_of_eq h.symm)
    · exact h5 h
    · exact h6 h
  · unfold GetStitchingTrajectory
    dsimp only
    split_ifs with h1 h2 h3 h4 h5 h6
    all_goals apply List.ne_nil_of_length_pos
    all_goals try (rw [length_ComputeReinitStitchingTrajectory]; norm_num)
    have hne : history.trajectory_points ≠ [] := fun hh => h2 (by simp [hh])
    have htmi_lt : GetTimeMatchIndex (current_time_stamp - history.stamp)
        (1/100000) history.trajectory_points <
        history.trajectory_points.length - 1 := by omega
    have hfwd_lt : GetTimeMatchIndex
        (current_time_stamp - history.stamp + planning_cycle_time) (1/100000)
        history.trajectory_points < history.trajectory_points.length :=
      getTimeMatchIndex_lt_length _ _ _ hne (by norm_num)
    have hmono : GetTimeMatchIndex (current_time_stamp - history.stamp)
        (1/100000) history.trajectory_points ≤
        GetTimeMatchIndex
          (current_time_stamp - history.stamp + planning_cycle_time)
          (1/100000) history.trajectory_points :=
      getTimeMatchIndex_mono _ _ _ _ hne (by norm_num) (by linarith)
    have hm31 : min (GetPositionMatchedIndex (state.x, state.y)
          history.trajectory_points)
        (GetTimeMatchIndex (current_time_stamp - history.stamp) (1/100000)
          history.trajectory_points) < 2 ^ 31 := by
      have := min_le_right (GetPositionMatchedIndex (state.x, state.y)
          history.trajectory_points)
        (GetTimeMatchIndex (current_time_stamp - history.stamp) (1/100000)
          history.trajectory_points)
      omega
    have hstart := sliceStartNat_le_left _ preserve_points_num hm31 hpre
    rw [length_stitchNormalSlice]
    omega

/-- Witness for C4 at a cold start: no history, empty history trajectory,
vehicle at rest, cycle period 0.1 s — one point is returned. -/
theorem GetStitchingTrajectory_reinit_and_nonempty_witness :
    (GetStitchingTrajectory (fun _ => 1) (fun _ => 0) (fun s _ => s) cfgEm 0
      (1/10) 5 false {} {}).length = 1 ∧
    GetStitchingTrajectory (fun _ => 1) (fun _ => 0) (fun s _ => s) cfgEm 0
      (1/10) 5 false {} {} ≠ [] :=
  ⟨(GetStitchingTrajectory_reinit_and_nonempty (fun _ => 1) (fun _ => 0)
      (fun s _ => s) cfgEm 0 (1/10) 5 false {} {} _ _ _ rfl rfl rfl
      (by decide) (by decide) (by norm_num)).1 (Or.inl rfl),
   (GetStitchingTrajectory_reinit_and_nonempty (fun _ => 1) (fun _ => 0)
      (fun s _ => s) cfgEm 0 (1/10) 5 false {} {} _ _ _ rfl rfl rfl
      (by decide) (by decide) (by norm_num)).2⟩

/-- C7 (amended): on the normal stitching path, the returned prefix is the
history slice from `max(0, min(position, time) matched index − preserve)`
through the forward time-matched index `fwd` (the time match for
`relative_time + cycle_period`), with every point's `relative_time` shifted
by `(history stamp − now)` and every point's `s` decreased by the slice's
last point's original `s`; its last point is the history point at index
`fwd` — not at `min(position, time)` — re-based to `s = 0`, and the prefix is
non-empty. -/
theorem GetStitchingTrajectory_normal_path (cosQ sinQ : ℚ → ℚ)
    (nextState : KinoDynamicState → ℚ → KinoDynamicState)
    (cfg : PlanningConfig) (current_time_stamp planning_cycle_time : ℚ)
    (preserve_points_num : ℕ) (history : Trajectory)
    (state : KinoDynamicState) (tmi pmi fwd : ℕ) (sd : ℚ × ℚ)
    (htmi : tmi = GetTimeMatchIndex (current_time_stamp - history.stamp)
      (1/100000) history.trajectory_points)
    (hpmi : pmi = GetPositionMatchedIndex (state.x, state.y)
      history.trajectory_points)
    (hsd : sd = GetLatAndLonDistFromRefPoint cosQ sinQ state.x state.y
      (history.trajectory_points.getD pmi default).path_point)
    (hfwd : fwd = GetTimeMatchIndex
      (current_time_stamp - history.stamp + planning_cycle_time) (1/100000)
      history.trajectory_points)
    (hne : history.trajectory_points ≠ [])
    (h3 : ¬(tmi = 0 ∧ current_time_stamp - history.stamp <
      history.trajectory_points.headI.relative_time))
    (h4 : ¬(history.trajectory_points.length - 1 ≤ tmi))
    (h5 : ¬(cfg.max_replan_lat_distance_threshold < |sd.2|))
    (h6 : ¬(cfg.max_replan_lon_distance_threshold <
      |(history.trajectory_points.getD tmi default).path_point.s - sd.1|))
    (hlen : history.trajectory_points.length < 2 ^ 31)
    (hpre : preserve_points_num < 2 ^ 31)
    (hcyc : 0 ≤ planning_cycle_time) :
    GetStitchingTrajectory cosQ sinQ nextState cfg current_time_stamp
        planning_cycle_time preserve_points_num true history state =
      stitchNormalSlice history.trajectory_points
        (history.stamp - current_time_stamp)
        (sliceStartNat (min pmi tmi) preserve_points_num) fwd ∧
    (GetStitchingTrajectory cosQ sinQ nextState cfg current_time_stamp
        planning_cycle_time preserve_points_num true history state).getLast? =
      some { history.trajectory_points.getD fwd default with
             relative_time := (history.trajectory_points.getD fwd
               default).relative_time + (history.stamp - current_time_stamp),
             path_point := { (history.trajectory_points.getD fwd
               default).path_point with s := 0 } } ∧
    GetStitchingTrajectory cosQ sinQ nextState cfg current_time_stamp
      planning_cycle_time preserve_points_num true history state ≠ [] := by
  subst htmi hpmi hsd hfwd
  have hexpand : GetStitchingTrajectory cosQ sinQ nextState cfg
      current_time_stamp planning_cycle_time preserve_points_num true history
      state =
      stitchNormalSlice history.trajectory_points
        (history.stamp - current_time_stamp)
        (sliceStartNat
          (min (GetPositionMatchedIndex (state.x, state.y)
            history.trajectory_points)
            (GetTimeMatchIndex (current_time_stamp - history.stamp) (1/100000)
              history.trajectory_points)) preserve_points_num)
        (GetTimeMatchIndex
          (current_time_stamp - history.stamp + planning_cycle_time)
          (1/100000) history.trajectory_points) := by
    unfold GetStitchingTrajectory
    dsimp only
    rw [if_neg (by simp), if_neg (fun hh => hne (List.isEmpty_iff.mp hh)),
      if_neg h3, if_neg h4, if_neg h5, if_neg h6]
  have htmi_lt : GetTimeMatchIndex (current_time_stamp - history.stamp)
      (1/100000) history.trajectory_points <
      history.trajectory_points.length - 1 := by omega
  have hfwd_lt : GetTimeMatchIndex
      (current_time_stamp - history.stamp + planning_cycle_time) (1/100000)
      history.trajectory_points < history.trajectory_points.length :=
    getTimeMatchIndex_lt_length _ _ _ hne (by norm_num)
  have hmono : GetTimeMatchIndex (current_time_stamp - history.stamp)
      (1/100000) history.trajectory_points ≤
      GetTimeMatchIndex
        (current_time_stamp - history.stamp + planning_cycle_time) (1/100000)
        history.trajectory_points :=
    getTimeMatchIndex_mono _ _ _ _ hne (by norm_num) (by linarith)
  have hm31 : min (GetPositionMatchedIndex (state.x, state.y)
        history.trajectory_points)
      (GetTimeMatchIndex (current_time_stamp - history.stamp) (1/100000)
        history.trajectory_points) < 2 ^ 31 := by
    have := min_le_right (GetPositionMatchedIndex (state.x, state.y)
        history.trajectory_points)
      (GetTimeMatchIndex (current_time_stamp - history.stamp) (1/100000)
        history.trajectory_points)
    omega
  have hstart := sliceStartNat_le_left _ preserve_points_num hm31 hpre
  have hstart_le : sliceStartNat
      (min (GetPositionMatchedIndex (state.x, state.y)
        history.trajectory_points)
        (GetTimeMatchIndex (current_time_stamp - history.stamp) (1/100000)
          history.trajectory_points)) preserve_points_num ≤
      GetTimeMatchIndex
        (current_time_stamp - history.stamp + planning_cycle_time) (1/100000)
        history.trajectory_points := by
    have := min_le_right (GetPositionMatchedIndex (state.x, state.y)
        history.trajectory_points)
      (GetTimeMatchIndex (current_time_stamp - history.stamp) (1/100000)
        history.trajectory_points)
    omega
  refine ⟨hexpand, ?_, ?_⟩
  · rw [hexpand]
    exact stitchNormalSlice_getLast? _ _ _ _ hstart_le hfwd_lt
  · rw [hexpand]
    exact stitchNormalSlice_ne_nil _ _ _ _ hstart_le hfwd_lt

/-- Configuration for the concrete stitching scenario: generous replan
thresholds (100 m) so the normal path is taken. -/
def cfgC7 : PlanningConfig :=
  { desired_velocity := 10, max_lat_acc := 2, max_lon_acc := 3,
    max_lookahead_time := 8, delta_t := 1, loop_rate := 10,
    preserve_history_trajectory_point_num := 2,
    max_replan_lat_distance_threshold := 100,
    max_replan_lon_distance_threshold := 100 }

/-- History point at parameter `k`: x = s = relative_time = k, on the x-axis
with heading 0. -/
def histPt (k : ℚ) : TrajectoryPoint :=
  { path_point := { x := k, s := k }, relative_time := k }

/-- A five-point history trajectory with stamp 0: points at x = s = t =
0, 1, 2, 3, 4. -/
def histC7 : Trajectory :=
  { trajectory_points := [histPt 0, histPt 1, histPt 2, histPt 3, histPt 4],
    stamp := 0, status := .NORMAL }

/-- In the concrete scenario the position match (vehicle at the origin) is
index 0. -/
theorem posMatch_histC7 :
    GetPositionMatchedIndex ((0:ℚ), (0:ℚ)) histC7.trajectory_points = 0 := by
  norm_num [GetPositionMatchedIndex, posMatchGo, histC7, histPt]

/-- In the concrete scenario the time match for relative time 1 is index 1. -/
theorem timeMatch_histC7_one :
    GetTimeMatchIndex ((1:ℚ) - histC7.stamp) (1/100000)
      histC7.trajectory_points = 1 := by
  norm_num [GetTimeMatchIndex, histC7, histPt, List.findIdx_cons,
    Bool.cond_eq_ite, decide_eq_true_eq, instInhabitedTrajectoryPoint]

/-- In the concrete scenario the forward time match (relative time 1 plus a
1 s cycle) is index 2. -/
theorem timeMatch_histC7_two :
    GetTimeMatchIndex ((1:ℚ) - histC7.stamp + 1) (1/100000)
      histC7.trajectory_points = 2 := by
  norm_num [GetTimeMatchIndex, histC7, histPt, List.findIdx_cons,
    Bool.cond_eq_ite, decide_eq_true_eq, instInhabitedTrajectoryPoint]

/-- C7 counterexample: in the concrete normal-path scenario (vehicle at the
origin, current time 1, cycle period 1, preserve 2) the returned prefix's
last point sits at x = 2 — the history point at the forward time-matched
index 2 — while the history point at the matched index `min(position, time)
= min(0, 1) = 0` sits at x = 0.  The last point is therefore 2 m away from
the point the claim says it equals (within numerical tolerance). -/
theorem stitching_last_point_not_at_matched_index :
    ((GetStitchingTrajectory (fun _ => 1) (fun _ => 0) (fun s _ => s) cfgC7 1 1
        2 true histC7 {}).getLastD default).path_point.x = 2 ∧
    (histC7.trajectory_points.getD
      (min (GetPositionMatchedIndex (({} : KinoDynamicState).x,
          ({} : KinoDynamicState).y) histC7.trajectory_points)
        (GetTimeMatchIndex (1 - histC7.stamp) (1/100000)
          histC7.trajectory_points))
      default).path_point.x = 0 := by
  constructor
  · unfold GetStitchingTrajectory
    dsimp only
    rw [posMatch_histC7, timeMatch_histC7_one, timeMatch_histC7_two]
    norm_num [histC7, histPt, cfgC7, stitchNormalSlice, sliceStartNat, toInt32,
      wrapSub64, GetLatAndLonDistFromRefPoint, instInhabitedTrajectoryPoint]
  · dsimp only
    rw [posMatch_histC7, timeMatch_histC7_one]
    norm_num [histC7, histPt, instInhabitedTrajectoryPoint]

/-- Witness for C7's amended theorem at the same concrete scenario. -/
theorem GetStitchingTrajectory_normal_path_witness :
    GetStitchingTrajectory (fun _ => 1) (fun _ => 0) (fun s _ => s) cfgC7 1 1 2
        true histC7 {} =
      stitchNormalSlice histC7.trajectory_points (histC7.stamp - 1)
        (sliceStartNat
          (min (GetPositionMatchedIndex ((0:ℚ), (0:ℚ))
            histC7.trajectory_points)
            (GetTimeMatchIndex ((1:ℚ) - histC7.stamp) (1/100000)
              histC7.trajectory_points)) 2)
        (GetTimeMatchIndex ((1:ℚ) - histC7.stamp + 1) (1/100000)
          histC7.trajectory_points) ∧
    (GetStitchingTrajectory (fun _ => 1) (fun _ => 0) (fun s _ => s) cfgC7 1 1
        2 true histC7 {}).getLast? =
      some { histC7.trajectory_points.getD
               (GetTimeMatchIndex ((1:ℚ) - histC7.stamp + 1) (1/100000)
                 histC7.trajectory_points) default with
             relative_time :=
               (histC7.trajectory_points.getD
                 (GetTimeMatchIndex ((1:ℚ) - histC7.stamp + 1) (1/100000)
                   histC7.trajectory_points) default).relative_time +
                 (histC7.stamp - 1),
             path_point :=
               { (histC7.trajectory_points.getD
                   (GetTimeMatchIndex ((1:ℚ) - histC7.stamp + 1) (1/100000)
                     histC7.trajectory_points) default).path_point with
                 s := 0 } } ∧
    GetStitchingTrajectory (fun _ => 1) (fun _ => 0) (fun s _ => s) cfgC7 1 1 2
      true histC7 {} ≠ [] :=
  GetStitchingTrajectory_normal_path (fun _ => 1) (fun _ => 0) (fun s _ => s)
    cfgC7 1 1 2 histC7 {} _ _ _ _ rfl rfl rfl rfl (by decide)
    (by rw [timeMatch_histC7_one]; norm_num)
    (by rw [timeMatch_histC7_one]; norm_num [histC7])
    (by dsimp only
        rw [posMatch_histC7]
        norm_num [GetLatAndLonDistFromRefPoint, histC7, histPt, cfgC7,
          instInhabitedTrajectoryPoint])
    (by dsimp only
        rw [timeMatch_histC7_one, posMatch_histC7]
        norm_num [GetLatAndLonDistFromRefPoint, histC7, histPt, cfgC7,
          instInhabitedTrajectoryPoint])
    (by norm_num [histC7]) (by norm_num) (by norm_num)

end Planning
